import Mathlib

/-!
Verification of pLEXtrum (plextrum.h), a header-only rule/action based
lexing library for C.  The definitions below are a shallow embedding of the
implementation section of plextrum.h (the `LEXER_IMPL` block): each Lean
definition mirrors one C function, with a comment naming the source lines.

Modelling conventions:
  - The source buffer is a list of byte values (`List Nat`); the C pointer
    `const char *source` together with an index becomes a plain offset.
  - `size_t` and `uint32_t` values are `Nat`.  The only place where the C
    code performs arithmetic that can wrap is `lexer_peek`
    (`lexer->position + offset` on `size_t`), and there the wrap is made
    explicit with `% SIZE_T_MOD`.
  - A possibly-NULL `lexer_t *` is `Option Lexer`; a possibly-NULL
    `const char *` string is `Option String`.
  - A token lexeme pointer is a `Lexeme`: an offset into the source buffer,
    the static string literal used for EOF tokens, or the null pointer that
    zero-initialization produces.
  - Matchers and actions are arbitrary C functions receiving `lexer_t *`
    and `token_t *`; they are embedded as arbitrary Lean functions on the
    scan state (all lexer fields except the rule table) and the working
    token.  The rule table itself is not visible to matchers: the spec
    (section 4.2) forbids matchers from mutating the rule table during a
    match attempt, and a negative occurrence of the rule list in the
    matcher type would be unrepresentable anyway.
  - The `while (true)` restart loop of `lexer_next_token` does not
    terminate for pathological rule sets (a zero-consumption ignorable
    cycle, acknowledged in the spec), so the scan loop takes fuel and
    returns `none` when the fuel is exhausted; `none` models divergence.
-/

namespace Plextrum

/-- token_flag_t (plextrum.h:84): TOKEN_FLAG_IGNORE = 1 << 0. -/
def TOKEN_FLAG_IGNORE : Nat := 1

/-- lexer_flags_t (plextrum.h:89): LEXER_FLAG_KEEP_IGNORABLE = 1 << 0. -/
def LEXER_FLAG_KEEP_IGNORABLE : Nat := 1

/-- internal_token_kind_t (plextrum.h:94): INTERNAL_TOKEN_EOF = 0. -/
def INTERNAL_TOKEN_EOF : Nat := 0

/-- internal_token_kind_t (plextrum.h:94): INTERNAL_TOKEN_ERROR = 1. -/
def INTERNAL_TOKEN_ERROR : Nat := 1

/-- Modulus of C size_t arithmetic (64-bit). -/
def SIZE_T_MOD : Nat := 2 ^ 64

/-- Value of the `const char *lexeme` field of token_t: a pointer into the
source buffer at a byte offset, the static string literal used by
lexer_next_token for EOF tokens (plextrum.h:325,381), or the null pointer
produced by `token_t token = «0»` zero-initialization (plextrum.h:330). -/
inductive Lexeme where
  | src (off : Nat)
  | eofStr
  | null
deriving DecidableEq, Repr

/-- token_t (plextrum.h:101). -/
structure Token where
  kind : Nat
  lexeme : Lexeme
  length : Nat
  filename : Option String
  line : Nat
  column : Nat
  flags : Nat
deriving DecidableEq, Repr

/-- The scan-state part of lexer_t (plextrum.h:127): every field except the
rule table.  This is the state a matcher or action can read and mutate. -/
structure ScanState where
  source : List Nat
  source_length : Nat
  position : Nat
  line : Nat
  column : Nat
  filename : Option String
  error_message : Option String
  context : Nat
  flags : Nat
deriving DecidableEq, Repr

/-- token_matcher_fn (plextrum.h:112): receives the lexer and the working
token, may mutate both, reports success or failure. -/
abbrev Matcher := ScanState → Token → Bool × ScanState × Token

/-- token_action_fn (plextrum.h:113). -/
abbrev TokenActionFn := ScanState → Token → ScanState × Token

/-- lexer_rule_t (plextrum.h:116): matcher required, action possibly NULL. -/
structure Rule where
  matcher : Matcher
  action : Option TokenActionFn

/-- lexer_t (plextrum.h:127): the scan state plus the rule table. -/
structure Lexer extends ScanState where
  rules : List Rule

/-- Rebuild a lexer from a new scan state, keeping the rule table (the rule
table is not reachable from matcher or action code). -/
def Lexer.withScan (lx : Lexer) (s : ScanState) : Lexer :=
  { toScanState := s, rules := lx.rules }

/-- create_token (plextrum.h:308): builds a token value field by field. -/
def create_token (kind : Nat) (lexeme : Lexeme) (length line column : Nat)
    (filename : Option String) (flags : Nat) : Token :=
  { kind := kind, lexeme := lexeme, length := length, filename := filename,
    line := line, column := column, flags := flags }

/-- The zero-initialized working token `token_t token = «0»`
(plextrum.h:330). -/
def tokenZero : Token :=
  { kind := 0, lexeme := Lexeme.null, length := 0, filename := none,
    line := 0, column := 0, flags := 0 }

/-- C strlen on a byte list: length of the prefix before the first NUL. -/
def strlen : List Nat → Nat
  | [] => 0
  | b :: rest => if b = 0 then 0 else strlen rest + 1

/-- lexer_reset (plextrum.h:252): no-op when the lexer or the new source is
NULL; otherwise rebinds source, source_length (running strlen when the
length argument is zero), filename, and reinitializes position 0, line 1,
column 1.  Rules, error_message, context and flags are not written. -/
def lexer_reset (olx : Option Lexer) (osrc : Option (List Nat)) (length : Nat)
    (filename : Option String) : Option Lexer :=
  match olx, osrc with
  | none, _ => none
  | some lx, none => some lx
  | some lx, some src =>
    let len := if length = 0 then strlen src else length
    some { lx with source := src, source_length := len, position := 0,
                   filename := filename, line := 1, column := 1 }

/-- lexer_current (plextrum.h:269). -/
def lexer_current (olx : Option Lexer) : Nat :=
  match olx with
  | none => 0
  | some lx =>
    if lx.source_length ≤ lx.position then 0
    else lx.source.getD lx.position 0

/-- lexer_peek (plextrum.h:276): `lexer->position + offset` is size_t
addition, which wraps modulo 2^64; both the bounds check and the read use
the wrapped sum. -/
def lexer_peek (olx : Option Lexer) (offset : Nat) : Nat :=
  match olx with
  | none => 0
  | some lx =>
    if lx.source_length ≤ (lx.position + offset) % SIZE_T_MOD then 0
    else lx.source.getD ((lx.position + offset) % SIZE_T_MOD) 0

/-- lexer_advance on the scan state (plextrum.h:283): no-op at or past the
end of the buffer; otherwise consume one byte, on a newline increment line
and reset column to 1, else increment column. -/
def advanceS (s : ScanState) : ScanState :=
  if s.source_length ≤ s.position then s
  else
    let current := s.source.getD s.position 0
    if current = 10 then
      { s with position := s.position + 1, line := s.line + 1, column := 1 }
    else
      { s with position := s.position + 1, column := s.column + 1 }

/-- lexer_advance (plextrum.h:283), NULL-checked wrapper. -/
def lexer_advance (olx : Option Lexer) : Option Lexer :=
  match olx with
  | none => none
  | some lx => some (lx.withScan (advanceS lx.toScanState))

/-- lexer_is_eof (plextrum.h:297): true when the lexer is NULL or the
cursor is at or past the buffer length. -/
def lexer_is_eof (olx : Option Lexer) : Bool :=
  match olx with
  | none => true
  | some lx => decide (lx.source_length ≤ lx.position)

/-- lexer_get_position (plextrum.h:391). -/
def lexer_get_position (olx : Option Lexer) : Nat :=
  match olx with
  | none => 0
  | some lx => lx.position

/-- lexer_get_line (plextrum.h:395). -/
def lexer_get_line (olx : Option Lexer) : Nat :=
  match olx with
  | none => 0
  | some lx => lx.line

/-- lexer_get_column (plextrum.h:397). -/
def lexer_get_column (olx : Option Lexer) : Nat :=
  match olx with
  | none => 0
  | some lx => lx.column

/-- Result of one full pass of the for loop over the rule table inside
lexer_next_token (plextrum.h:339-370): either a rule matched and its
(post-action) token is returned, or a rule matched an ignorable token and
the restart loop continues, or every rule failed. -/
inductive LoopResult where
  | matched (t : Token) (s : ScanState)
  | ignored (s : ScanState) (t : Token)
  | nomatch (s : ScanState) (t : Token)
deriving Repr

/-- One rule attempt, the body of the for loop (plextrum.h:340-354): set
the working token line, column and lexeme start to the attempt origin
(kind, length and flags are NOT reinitialized), invoke the matcher, and on
success invoke the action when present. -/
def attemptRule (p l c : Nat) (s : ScanState) (tok : Token) (r : Rule) :
    Bool × ScanState × Token :=
  let tok0 := { tok with line := l, column := c, lexeme := Lexeme.src p }
  match r.matcher s tok0 with
  | (true, s1, tok1) =>
    match r.action with
    | some a =>
      match a s1 tok1 with
      | (s2, tok2) => (true, s2, tok2)
    | none => (true, s1, tok1)
  | (false, s1, tok1) => (false, s1, tok1)

/-- The for loop over the rule table (plextrum.h:339-370) at attempt origin
(p, l, c).  On a successful non-ignorable match a materialized copy of the
token is returned (plextrum.h:362); on an ignorable match with
LEXER_FLAG_KEEP_IGNORABLE unset the pass is abandoned for a restart
(plextrum.h:355-360); on matcher failure position, line and column are
restored to the origin and the next rule is tried (plextrum.h:366-369).
The `if (reset) i = 0;` statement at plextrum.h:345 is unreachable: reset
is cleared at plextrum.h:376 before the loop can run again, so it is not
modelled. -/
def tryRules (p l c : Nat) (s : ScanState) (tok : Token) :
    List Rule → LoopResult
  | [] => LoopResult.nomatch s tok
  | r :: rs =>
    match attemptRule p l c s tok r with
    | (true, s2, tok2) =>
      if tok2.flags &&& TOKEN_FLAG_IGNORE ≠ 0 ∧
          s2.flags &&& LEXER_FLAG_KEEP_IGNORABLE = 0 then
        LoopResult.ignored s2 tok2
      else
        LoopResult.matched
          (create_token tok2.kind tok2.lexeme tok2.length tok2.line
            tok2.column tok2.filename tok2.flags) s2
    | (false, s2, tok2) =>
      tryRules p l c { s2 with position := p, line := l, column := c } tok2 rs

/-- The `while (true)` restart loop of lexer_next_token together with the
no-match epilogue (plextrum.h:333-388).  Each iteration snapshots the
current position, line and column as the attempt origin and runs a full
pass over the rule table; an ignorable match restarts the loop from the
post-match state with the working token carried over; when no rule matches
the epilogue returns an EOF token if the cursor is at the end
(plextrum.h:380-383), else an ERROR token covering one byte followed by
lexer_advance (plextrum.h:384-388).  `none` models divergence of the C
loop (fuel exhausted). -/
def scanLoop : Nat → ScanState → List Rule → Token → Option (Token × ScanState)
  | 0, _, _, _ => none
  | fuel + 1, s, rules, tok =>
    match tryRules s.position s.line s.column s tok rules with
    | LoopResult.matched t s2 => some (t, s2)
    | LoopResult.ignored s2 tok2 => scanLoop fuel s2 rules tok2
    | LoopResult.nomatch s2 _ =>
      if s2.source_length ≤ s2.position then
        some (create_token INTERNAL_TOKEN_EOF Lexeme.eofStr 0 s2.line
          s2.column s2.filename 0, s2)
      else
        some (create_token INTERNAL_TOKEN_ERROR (Lexeme.src s2.position) 1
          s2.line s2.column s2.filename 0, advanceS s2)

/-- lexer_next_token (plextrum.h:322): a NULL lexer or a lexer at EOF
yields an EOF token immediately (with line 0, column 0, filename NULL in
the NULL case); otherwise the restart loop runs with the zero-initialized
working token.  The result pairs the returned token with the lexer after
the call; `none` models divergence. -/
def lexer_next_token (fuel : Nat) (olx : Option Lexer) :
    Option (Token × Option Lexer) :=
  match olx with
  | none =>
    some (create_token INTERNAL_TOKEN_EOF Lexeme.eofStr 0 0 0 none 0, none)
  | some lx =>
    if lx.source_length ≤ lx.position then
      some (create_token INTERNAL_TOKEN_EOF Lexeme.eofStr 0 lx.line lx.column
        lx.filename 0, some lx)
    else
      (scanLoop fuel lx.toScanState lx.rules tokenZero).map
        (fun r => (r.1, some (lx.withScan r.2)))

/-- Claim C6 words: a token source reference (lexeme start plus length)
lies within the bounds of the source buffer of length len.  A lexeme that
is not a reference into the buffer (the static EOF string, or null) is not
within bounds. -/
def lexemeInBuffer (len : Nat) (t : Token) : Bool :=
  match t.lexeme with
  | Lexeme.src off => decide (off + t.length ≤ len)
  | _ => false

/-! Concrete matchers, states and lexers used to evaluate the theorems on
concrete inputs. -/

/-- A matcher recognizing one space byte (32) and flagging the token
ignorable, in the style of a whitespace-skipping rule. -/
def wsIgnoreMatcher : Matcher := fun s t =>
  if s.source.getD s.position 0 = 32 then
    (true, { s with position := s.position + 1, column := s.column + 1 },
      { t with kind := 7, length := 1, flags := TOKEN_FLAG_IGNORE })
  else (false, s, t)

/-- A matcher recognizing one letter x byte (120). -/
def xIdentMatcher : Matcher := fun s t =>
  if s.source.getD s.position 0 = 120 then
    (true, { s with position := s.position + 1, column := s.column + 1 },
      { t with kind := 8, length := 1, flags := 0 })
  else (false, s, t)

/-- A matcher that speculatively consumes one byte and then reports
failure, exercising the backtracking path. -/
def probeFailMatcher : Matcher := fun s t =>
  (false, { s with position := s.position + 1, column := s.column + 1 }, t)

/-- A matcher that always succeeds, writes only the kind field of the
working token, and leaves the flags field untouched. -/
def kindOnlyMatcher : Matcher := fun s t => (true, s, { t with kind := 9 })

/-- Scan state over the two-byte input consisting of a space then x. -/
def scanSpaceX : ScanState :=
  { source := [32, 120], source_length := 2, position := 0, line := 1,
    column := 1, filename := some "t", error_message := none, context := 0,
    flags := 0 }

/-- scanSpaceX after the space has been consumed. -/
def scanSpaceX1 : ScanState := { scanSpaceX with position := 1, column := 2 }

/-- Lexer over the space-then-x input with the ignorable whitespace rule
first and the identifier rule second. -/
def lexSpaceX : Lexer :=
  { toScanState := scanSpaceX,
    rules := [⟨wsIgnoreMatcher, none⟩, ⟨xIdentMatcher, none⟩] }

/-- The ignorable whitespace token produced on lexSpaceX. -/
def wsTok : Token :=
  { kind := 7, lexeme := Lexeme.src 0, length := 1, filename := none,
    line := 1, column := 1, flags := 1 }

/-- Scan state over the one-byte input x. -/
def scanX : ScanState :=
  { source := [120], source_length := 1, position := 0, line := 1,
    column := 1, filename := none, error_message := none, context := 0,
    flags := 0 }

/-- scanX after the x has been consumed. -/
def scanX1 : ScanState := { scanX with position := 1, column := 2 }

/-- Lexer over the x input with a speculatively-consuming failing rule
first and the identifier rule second. -/
def lexProbeX : Lexer :=
  { toScanState := scanX,
    rules := [⟨probeFailMatcher, none⟩, ⟨xIdentMatcher, none⟩] }

/-- The x token produced on lexProbeX. -/
def xTok : Token :=
  { kind := 8, lexeme := Lexeme.src 0, length := 1, filename := none,
    line := 1, column := 1, flags := 0 }

/-- The working token after initialization at origin (0, 1, 1). -/
def tokInit0 : Token :=
  { kind := 0, lexeme := Lexeme.src 0, length := 0, filename := none,
    line := 1, column := 1, flags := 0 }

/-- Scan state over the one-byte input consisting of byte 35, matched by
no rule below. -/
def scanHash : ScanState :=
  { source := [35], source_length := 1, position := 0, line := 1,
    column := 1, filename := none, error_message := none, context := 0,
    flags := 0 }

/-- Lexer over the byte-35 input whose single rule matches only x. -/
def lexHash : Lexer :=
  { toScanState := scanHash, rules := [⟨xIdentMatcher, none⟩] }

/-- A matcher that succeeds while writing an out-of-bounds source
reference into the token (offset 5, length 7 on a one-byte buffer): the
engine hands such references through unchecked. -/
def oobMatcher : Matcher := fun s t =>
  (true, s, { t with kind := 3, lexeme := Lexeme.src 5, length := 7 })

/-- Lexer over the one-byte input whose single rule is the out-of-bounds
writer. -/
def lexOob : Lexer :=
  { toScanState := scanHash, rules := [⟨oobMatcher, none⟩] }

/-- Lexer over the empty input, already at EOF. -/
def emptyLexer : Lexer :=
  { source := [], source_length := 0, position := 0, line := 1, column := 1,
    filename := none, error_message := none, context := 0, flags := 0,
    rules := [] }

/-- The token produced by kindOnlyMatcher when handed the stale working
token wsTok at origin (1, 1, 2): only the kind changes, the Ignore flag
persists. -/
def staleTok9 : Token :=
  { kind := 9, lexeme := Lexeme.src 1, length := 1, filename := none,
    line := 1, column := 2, flags := 1 }

/-! Helper lemmas about the scan loop. -/

/-- Running the rule loop on an appended rule list first runs the prefix;
only a no-match outcome of the prefix continues into the suffix, threading
the restored state and the working token. -/
theorem tryRules_append (p l c : Nat) (s : ScanState) (tok : Token)
    (pre rest : List Rule) :
    tryRules p l c s tok (pre ++ rest) =
      match tryRules p l c s tok pre with
      | LoopResult.nomatch s1 tok1 => tryRules p l c s1 tok1 rest
      | r => r := by
  induction pre generalizing s tok with
  | nil => simp [tryRules]
  | cons r rs ih =>
    rcases h : attemptRule p l c s tok r with ⟨_ | _, s2, tok2⟩
    · simp only [List.cons_append, tryRules, h]
      exact ih _ _
    · simp only [List.cons_append, tryRules, h]
      by_cases hig : tok2.flags &&& TOKEN_FLAG_IGNORE ≠ 0 ∧
          s2.flags &&& LEXER_FLAG_KEEP_IGNORABLE = 0
      · simp [hig]
      · simp [hig]

/-- When every rule of a pass fails, the final state carries the attempt
origin in its position, line and column fields: each failed attempt was
fully backtracked. -/
theorem tryRules_nomatch_origin (p l c : Nat) (s s1 : ScanState)
    (tok tok1 : Token) (rs : List Rule)
    (hp : s.position = p) (hl : s.line = l) (hc : s.column = c)
    (h : tryRules p l c s tok rs = LoopResult.nomatch s1 tok1) :
    s1.position = p ∧ s1.line = l ∧ s1.column = c := by
  induction rs generalizing s tok with
  | nil =>
    simp only [tryRules] at h
    injection h with h1 h2
    subst h1
    exact ⟨hp, hl, hc⟩
  | cons r rs ih =>
    rcases hA : attemptRule p l c s tok r with ⟨_ | _, s2, tok2⟩
    · simp only [tryRules, hA] at h
      exact ih _ _ rfl rfl rfl h
    · simp only [tryRules, hA] at h
      by_cases hig : tok2.flags &&& TOKEN_FLAG_IGNORE ≠ 0 ∧
          s2.flags &&& LEXER_FLAG_KEEP_IGNORABLE = 0
      · simp [hig] at h
      · simp [hig] at h

/-- Advancing strictly inside the buffer moves the position forward by
exactly one byte. -/
theorem advanceS_position (s : ScanState) (hs : s.position < s.source_length) :
    (advanceS s).position = s.position + 1 := by
  simp only [advanceS]
  rw [if_neg (by omega)]
  split <;> rfl

/-- A lexer not at EOF enters the restart loop with the zero-initialized
working token. -/
theorem lexer_next_token_run (fuel : Nat) (lx : Lexer)
    (hne : lx.position < lx.source_length) :
    lexer_next_token fuel (some lx) =
      (scanLoop fuel lx.toScanState lx.rules tokenZero).map
        (fun r => (r.1, some (lx.withScan r.2))) := by
  simp only [lexer_next_token]
  rw [if_neg (by omega)]

/-- When the whole pass fails and the cursor is still inside the buffer,
one loop unfolding produces the single-byte ERROR token and advances. -/
theorem scanLoop_nomatch_error (fuel : Nat) (s s1 : ScanState)
    (tok tok1 : Token) (rules : List Rule)
    (h : tryRules s.position s.line s.column s tok rules =
      LoopResult.nomatch s1 tok1)
    (hs : s1.position < s1.source_length) :
    scanLoop (fuel + 1) s rules tok =
      some (create_token INTERNAL_TOKEN_ERROR (Lexeme.src s1.position) 1
        s1.line s1.column s1.filename 0, advanceS s1) := by
  simp only [scanLoop, h]
  rw [if_neg (by omega)]

/-! Claim theorems. -/

/-- C1: with LEXER_FLAG_KEEP_IGNORABLE unset at the moment of the check,
when the rules before r all fail at the entry origin and r matches a token
that carries TOKEN_FLAG_IGNORE after the optional action, lexer_next_token
does not return that token: the call continues as a fresh restart-loop
iteration from the post-matcher/action state s2 — whose position, line and
column become the new attempt origin — over the FULL rule list (starting
again at the first rule), and the rules after r are never tried at the old
origin. -/
theorem ignorable_restart (fuel : Nat) (lx : Lexer) (s1 s2 : ScanState)
    (tok1 tok2 : Token) (pre post : List Rule) (r : Rule)
    (hrules : lx.rules = pre ++ r :: post)
    (hne : lx.position < lx.source_length)
    (hpre : tryRules lx.position lx.line lx.column lx.toScanState tokenZero
      pre = LoopResult.nomatch s1 tok1)
    (hm : attemptRule lx.position lx.line lx.column s1 tok1 r =
      (true, s2, tok2))
    (hign : tok2.flags &&& TOKEN_FLAG_IGNORE ≠ 0)
    (hkeep : s2.flags &&& LEXER_FLAG_KEEP_IGNORABLE = 0) :
    lexer_next_token (fuel + 1) (some lx) =
      (scanLoop fuel s2 lx.rules tok2).map
        (fun r2 => (r2.1, some (lx.withScan r2.2))) := by
  rw [lexer_next_token_run (fuel + 1) lx hne]
  have htr : tryRules lx.position lx.line lx.column lx.toScanState tokenZero
      lx.rules = LoopResult.ignored s2 tok2 := by
    rw [hrules, tryRules_append, hpre]
    simp only [tryRules, hm]
    rw [if_pos ⟨hign, hkeep⟩]
  simp only [scanLoop, htr]

/-- C1 witness: on the space-then-x input with the ignorable whitespace
rule first, the whitespace token is discarded and the scan restarts over
both rules from the advanced position. -/
theorem ignorable_restart_witness :
    lexer_next_token 2 (some lexSpaceX) =
      (scanLoop 1 scanSpaceX1 lexSpaceX.rules wsTok).map
        (fun r2 => (r2.1, some (lexSpaceX.withScan r2.2))) :=
  ignorable_restart 1 lexSpaceX scanSpaceX scanSpaceX1 tokenZero wsTok []
    [⟨xIdentMatcher, none⟩] ⟨wsIgnoreMatcher, none⟩ rfl (by decide) rfl
    (by rfl) (by decide) (by decide)

/-- C2: when the rules before r all fail at the entry origin and r matches
a token that is not discarded as ignorable, lexer_next_token returns a
materialized copy of r post-action token, whatever the rules after r would
have done and however many bytes any of them would have matched:
first-match-wins, the rule scan ends at the first success with no
backtracking across it. -/
theorem first_match_wins (fuel : Nat) (lx : Lexer) (s1 s2 : ScanState)
    (tok1 tok2 : Token) (pre post : List Rule) (r : Rule)
    (hrules : lx.rules = pre ++ r :: post)
    (hne : lx.position < lx.source_length)
    (hpre : tryRules lx.position lx.line lx.column lx.toScanState tokenZero
      pre = LoopResult.nomatch s1 tok1)
    (hm : attemptRule lx.position lx.line lx.column s1 tok1 r =
      (true, s2, tok2))
    (hni : ¬(tok2.flags &&& TOKEN_FLAG_IGNORE ≠ 0 ∧
      s2.flags &&& LEXER_FLAG_KEEP_IGNORABLE = 0)) :
    lexer_next_token (fuel + 1) (some lx) =
      some (create_token tok2.kind tok2.lexeme tok2.length tok2.line
        tok2.column tok2.filename tok2.flags, some (lx.withScan s2)) := by
  rw [lexer_next_token_run (fuel + 1) lx hne]
  have htr : tryRules lx.position lx.line lx.column lx.toScanState tokenZero
      lx.rules = LoopResult.matched (create_token tok2.kind tok2.lexeme
        tok2.length tok2.line tok2.column tok2.filename tok2.flags) s2 := by
    rw [hrules, tryRules_append, hpre]
    simp only [tryRules, hm]
    rw [if_neg hni]
  simp only [scanLoop, htr]
  rfl

/-- C2 witness: on the one-byte x input, the first rule consumes
speculatively and fails, the second rule wins and its token is returned. -/
theorem first_match_wins_witness :
    lexer_next_token 1 (some lexProbeX) =
      some (create_token xTok.kind xTok.lexeme xTok.length xTok.line
        xTok.column xTok.filename xTok.flags,
        some (lexProbeX.withScan scanX1)) :=
  first_match_wins 0 lexProbeX scanX scanX1 tokInit0 xTok
    [⟨probeFailMatcher, none⟩] [] ⟨xIdentMatcher, none⟩ rfl (by decide)
    (by rfl) (by rfl) (by decide)

/-- C3: however far the failing matchers of the prefix advanced the cursor
or changed the line and column, after those failed attempts the state
carries exactly the attempt origin (p, l, c) again, and the remaining
rules are tried from that restored state at the same origin. -/
theorem backtrack_exact (p l c : Nat) (s s1 : ScanState) (tok tok1 : Token)
    (pre rest : List Rule)
    (hp : s.position = p) (hl : s.line = l) (hc : s.column = c)
    (hfail : tryRules p l c s tok pre = LoopResult.nomatch s1 tok1) :
    (s1.position = p ∧ s1.line = l ∧ s1.column = c) ∧
      tryRules p l c s tok (pre ++ rest) = tryRules p l c s1 tok1 rest := by
  refine ⟨tryRules_nomatch_origin p l c s s1 tok tok1 pre hp hl hc hfail, ?_⟩
  rw [tryRules_append, hfail]

/-- C3 witness: the speculatively-consuming failing rule leaves the state
at the origin (0, 1, 1) and the identifier rule is tried from there. -/
theorem backtrack_exact_witness :
    (scanX.position = 0 ∧ scanX.line = 1 ∧ scanX.column = 1) ∧
      tryRules 0 1 1 scanX tokenZero
          ([⟨probeFailMatcher, none⟩] ++ [⟨xIdentMatcher, none⟩]) =
        tryRules 0 1 1 scanX tokInit0 [⟨xIdentMatcher, none⟩] :=
  backtrack_exact 0 1 1 scanX scanX tokenZero tokInit0
    [⟨probeFailMatcher, none⟩] [⟨xIdentMatcher, none⟩] rfl rfl rfl (by rfl)

/-- C4: when the lexer is not at EOF on entry, no rule matches at the
entry origin, and the post-pass state s1 is still inside the buffer,
lexer_next_token returns an ERROR token whose source reference is exactly
the single byte at the entry position (offset lx.position, length 1),
stamped with the entry line and column, and the position after the call is
lx.position + 1: unmatched input always makes strictly forward progress. -/
theorem nomatch_error_progress (fuel : Nat) (lx : Lexer) (s1 : ScanState)
    (tok1 : Token)
    (hne : lx.position < lx.source_length)
    (hnm : tryRules lx.position lx.line lx.column lx.toScanState tokenZero
      lx.rules = LoopResult.nomatch s1 tok1)
    (hs : s1.position < s1.source_length) :
    lexer_next_token (fuel + 1) (some lx) =
      some (create_token INTERNAL_TOKEN_ERROR (Lexeme.src lx.position) 1
        lx.line lx.column s1.filename 0,
        some (lx.withScan (advanceS s1))) ∧
      (advanceS s1).position = lx.position + 1 := by
  obtain ⟨hp1, hl1, hc1⟩ :=
    tryRules_nomatch_origin lx.position lx.line lx.column lx.toScanState s1
      tokenZero tok1 lx.rules rfl rfl rfl hnm
  constructor
  · rw [lexer_next_token_run (fuel + 1) lx hne,
      scanLoop_nomatch_error fuel lx.toScanState s1 tokenZero tok1 lx.rules
        hnm hs]
    rw [hp1, hl1, hc1]
    rfl
  · rw [advanceS_position s1 hs, hp1]

/-- C4 witness: on the one-byte input 35 matched by no rule, the call
returns the single-byte ERROR token at offset 0 and advances to 1. -/
theorem nomatch_error_progress_witness :
    lexer_next_token 1 (some lexHash) =
      some (create_token INTERNAL_TOKEN_ERROR (Lexeme.src 0) 1 1 1 none 0,
        some (lexHash.withScan (advanceS scanHash))) ∧
      (advanceS scanHash).position = 0 + 1 :=
  nomatch_error_progress 0 lexHash scanHash tokInit0 (by decide) (by rfl)
    (by decide)

/-- C5: a lexer whose cursor is at or past the end of the buffer yields,
for every fuel value, an EOF token stamped with the current line, column
and filename, and the returned lexer is exactly the input lexer: the
terminal state is unchanged, so every later call again returns EOF. -/
theorem eof_idempotent (fuel : Nat) (lx : Lexer)
    (heof : lx.source_length ≤ lx.position) :
    lexer_next_token fuel (some lx) =
      some (create_token INTERNAL_TOKEN_EOF Lexeme.eofStr 0 lx.line
        lx.column lx.filename 0, some lx) := by
  simp only [lexer_next_token]
  rw [if_pos heof]

/-- C5 witness: the empty-input lexer returns EOF with its state intact. -/
theorem eof_idempotent_witness :
    lexer_next_token 5 (some emptyLexer) =
      some (create_token INTERNAL_TOKEN_EOF Lexeme.eofStr 0 emptyLexer.line
        emptyLexer.column emptyLexer.filename 0, some emptyLexer) :=
  eof_idempotent 5 emptyLexer (by decide)

/-- C6 counterexample: the claim fails at two of its legs on concrete
inputs.  On the empty-input lexer, the produced (EOF) token carries the
static EOF string literal, not a reference into the source buffer, so its
source reference does not lie within the buffer bounds.  And on the
one-byte input with a rule whose matcher writes the reference offset 5,
length 7, the returned matcher-produced token carries that out-of-bounds
reference verbatim: the engine does not constrain it to the buffer. -/
theorem token_bounds_cex :
    (lexer_next_token 1 (some emptyLexer)).map
        (fun r => lexemeInBuffer emptyLexer.source_length r.1) =
      some false ∧
    (lexer_next_token 1 (some lexOob)).map
        (fun r => lexemeInBuffer lexOob.source_length r.1) =
      some false := ⟨rfl, rfl⟩

/-- C6 amended: every engine-synthesized ERROR token has a source
reference lying within the bounds of the buffer current when it was
produced.  Engine-synthesized EOF tokens do not satisfy this: their
lexeme is the static EOF string literal with length zero, not a reference
into the buffer.  Matcher-produced tokens do not satisfy it in general
either: the engine returns verbatim whatever source reference the matcher
or action wrote, without constraining it to the buffer bounds (the
counterexample exhibits an out-of-bounds one).  The two positive legs are
proved here; the two negative legs are the counterexample. -/
theorem token_bounds_amended (fuel : Nat) (lx : Lexer) (s1 : ScanState)
    (tok1 : Token) :
    (lx.source_length ≤ lx.position →
      (lexer_next_token fuel (some lx)).map (fun r => r.1.lexeme) =
        some Lexeme.eofStr ∧
      (lexer_next_token fuel (some lx)).map (fun r => r.1.length) =
        some 0) ∧
    (lx.position < lx.source_length →
      tryRules lx.position lx.line lx.column lx.toScanState tokenZero
        lx.rules = LoopResult.nomatch s1 tok1 →
      s1.position < s1.source_length →
      (lexer_next_token (fuel + 1) (some lx)).map
          (fun r => lexemeInBuffer s1.source_length r.1) =
        some true) := by
  constructor
  · intro heof
    constructor
    · simp only [lexer_next_token]
      rw [if_pos heof]
      rfl
    · simp only [lexer_next_token]
      rw [if_pos heof]
      rfl
  · intro hne hnm hs
    rw [lexer_next_token_run (fuel + 1) lx hne,
      scanLoop_nomatch_error fuel lx.toScanState s1 tokenZero tok1 lx.rules
        hnm hs]
    have hbuf : lexemeInBuffer s1.source_length
        (create_token INTERNAL_TOKEN_ERROR (Lexeme.src s1.position) 1
          s1.line s1.column s1.filename 0) = true := by
      simp only [lexemeInBuffer, create_token, decide_eq_true_eq]
      omega
    simp only [Option.map, hbuf]

/-- C6 amended witness: the empty-input lexer produces the static EOF
lexeme of length zero; the unmatched-byte lexer produces an in-bounds
single-byte ERROR token. -/
theorem token_bounds_amended_witness :
    ((lexer_next_token 1 (some emptyLexer)).map (fun r => r.1.lexeme) =
        some Lexeme.eofStr ∧
      (lexer_next_token 1 (some emptyLexer)).map (fun r => r.1.length) =
        some 0) ∧
    (lexer_next_token 1 (some lexHash)).map
        (fun r => lexemeInBuffer scanHash.source_length r.1) =
      some true :=
  ⟨(token_bounds_amended 1 emptyLexer scanHash tokenZero).1 (by decide),
    (token_bounds_amended 0 lexHash scanHash tokInit0).2 (by decide)
      (by rfl) (by decide)⟩

/-- C7: lexer_peek computes the lookahead index as size_t addition, that
is, (position + k) modulo 2^64; when that index is inside the buffer the
byte at the index is returned, and whenever it is out of range the
sentinel byte 0 is returned — for every k, including values whose true sum
exceeds the largest representable size_t. -/
theorem peek_contract (lx : Lexer) (k : Nat) :
    ((lx.position + k) % SIZE_T_MOD < lx.source_length →
      lexer_peek (some lx) k =
        lx.source.getD ((lx.position + k) % SIZE_T_MOD) 0) ∧
    (lx.source_length ≤ (lx.position + k) % SIZE_T_MOD →
      lexer_peek (some lx) k = 0) := by
  constructor
  · intro h
    simp only [lexer_peek]
    rw [if_neg (by omega)]
  · intro h
    simp only [lexer_peek]
    rw [if_pos h]

/-- C7 witness: peeking one byte ahead on the space-then-x input returns
the x byte; peeking past the end returns the sentinel 0. -/
theorem peek_contract_witness :
    lexer_peek (some lexSpaceX) 1 =
      lexSpaceX.source.getD ((lexSpaceX.position + 1) % SIZE_T_MOD) 0 ∧
    lexer_peek (some lexSpaceX) 5 = 0 :=
  ⟨(peek_contract lexSpaceX 1).1 (by decide),
    (peek_contract lexSpaceX 5).2 (by decide)⟩

/-- C8: resetting with a present source rebinds the buffer, its length
(running strlen when the length argument is zero), and the filename, and
reinitializes position 0, line 1, column 1, while the rule table, the user
context, the error message and the flag set are carried over unchanged
from the old lexer; resetting with an absent source changes nothing. -/
theorem reset_contract (lx : Lexer) (src : List Nat) (len : Nat)
    (fn : Option String) :
    lexer_reset (some lx) (some src) len fn =
      some { lx with source := src,
                     source_length := if len = 0 then strlen src else len,
                     position := 0, filename := fn, line := 1,
                     column := 1 } ∧
      lexer_reset (some lx) none len fn = some lx :=
  ⟨rfl, rfl⟩

/-- C9: the working token is not reinitialized between rule attempts:
before a matcher runs, only its line, column and lexeme start are reset to
the attempt origin, while kind, length and flags persist.  Hence when the
working token tok still carries the Ignore flag of a previously discarded
token, a rule whose matcher succeeds without writing the flags field (and
with no action) yields a token that still carries the Ignore flag, and
with LEXER_FLAG_KEEP_IGNORABLE unset that token is discarded again, the
loop restarting instead of returning it. -/
theorem stale_flags_persist (fuel : Nat) (s s1 : ScanState)
    (tok tok1 : Token) (r : Rule) (rs : List Rule)
    (hflag : tok.flags &&& TOKEN_FLAG_IGNORE ≠ 0)
    (hm : r.matcher s { tok with
      line := s.line, column := s.column, lexeme := Lexeme.src s.position } =
      (true, s1, tok1))
    (hpres : tok1.flags = tok.flags)
    (hact : r.action = none)
    (hkeep : s1.flags &&& LEXER_FLAG_KEEP_IGNORABLE = 0) :
    tryRules s.position s.line s.column s tok (r :: rs) =
        LoopResult.ignored s1 tok1 ∧
      scanLoop (fuel + 1) s (r :: rs) tok = scanLoop fuel s1 (r :: rs) tok1 := by
  have hflag1 : tok1.flags &&& TOKEN_FLAG_IGNORE ≠ 0 := by
    rw [hpres]
    exact hflag
  have htr : tryRules s.position s.line s.column s tok (r :: rs) =
      LoopResult.ignored s1 tok1 := by
    simp only [tryRules, attemptRule, hm, hact]
    rw [if_pos ⟨hflag1, hkeep⟩]
  exact ⟨htr, by simp only [scanLoop, htr]⟩

/-- C9 witness: after the ignorable whitespace token is discarded on the
space-then-x input, a flags-preserving matcher produces a token that still
carries the Ignore flag and is discarded again. -/
theorem stale_flags_persist_witness :
    tryRules scanSpaceX1.position scanSpaceX1.line scanSpaceX1.column
        scanSpaceX1 wsTok [⟨kindOnlyMatcher, none⟩] =
      LoopResult.ignored scanSpaceX1 staleTok9 ∧
    scanLoop 4 scanSpaceX1 [⟨kindOnlyMatcher, none⟩] wsTok =
      scanLoop 3 scanSpaceX1 [⟨kindOnlyMatcher, none⟩] staleTok9 :=
  stale_flags_persist 3 scanSpaceX1 scanSpaceX1 wsTok staleTok9
    ⟨kindOnlyMatcher, none⟩ [] (by decide) (by rfl) (by rfl) rfl (by decide)

/-- C10: every query operation on a NULL lexer returns a benign default:
lexer_next_token returns an EOF token with line 0, column 0 and an absent
filename (for every fuel), lexer_is_eof returns true, and
lexer_get_position, lexer_get_line and lexer_get_column return 0. -/
theorem null_engine_defaults (fuel : Nat) :
    lexer_next_token fuel none =
      some (create_token INTERNAL_TOKEN_EOF Lexeme.eofStr 0 0 0 none 0,
        none) ∧
    lexer_is_eof none = true ∧
    lexer_get_position none = 0 ∧
    lexer_get_line none = 0 ∧
    lexer_get_column none = 0 :=
  ⟨rfl, rfl, rfl, rfl, rfl⟩

end Plextrum
